import Mathlib

/-!
Verification development for the QUBIC AEGIS transaction risk-assessment
pipeline.  Python source files are shallowly embedded as Lean definitions:
floats become rationals, datetimes become integer second counts, Python
dicts become insertion-ordered association lists, Python sets become
insertion-ordered duplicate-free lists, and pydantic validation becomes an
explicit checking function.
-/

namespace Aegis

/-- Embeds app/models/transaction.py, class Transaction (a validated
transaction).  Timestamps are integer seconds. -/
structure Transaction where
  source_id : String
  dest_id : String
  amount : ℚ
  tick : Nat
  type : String
  signature : String
  timestamp : Option Int := none
  is_anomaly : Bool := false
  token_symbol : Option String := none
  token_name : Option String := none
deriving Repr, DecidableEq

/-- Raw ingestion payload before pydantic validation: every field of the
Transaction model may be absent in the incoming JSON object. -/
structure RawTransaction where
  source_id : Option String := none
  dest_id : Option String := none
  amount : Option ℚ := none
  tick : Option Nat := none
  type : Option String := none
  signature : Option String := none
  timestamp : Option Int := none
  is_anomaly : Option Bool := none
  token_symbol : Option String := none
  token_name : Option String := none
deriving Repr

/-- Embeds pydantic validation of app/models/transaction.py: the fields
source_id, dest_id, amount, tick and signature are required (no default),
type defaults to transfer, is_anomaly to false, the rest to None.  The
model declares no constraint on the sign of amount. -/
def validate_transaction (r : RawTransaction) : Except String Transaction :=
  match r.source_id, r.dest_id, r.amount, r.tick, r.signature with
  | some s, some d, some a, some t, some sig =>
      .ok { source_id := s, dest_id := d, amount := a, tick := t,
            type := r.type.getD ("transfer"), signature := sig,
            timestamp := r.timestamp, is_anomaly := r.is_anomaly.getD false,
            token_symbol := r.token_symbol, token_name := r.token_name }
  | _, _, _, _, _ => .error ("validation error: missing required field")

/-- Embeds app/agents/agent_collector.py, extract_features. -/
structure FeatureRecord where
  amount : ℚ
  token : String
  is_anomaly : Bool
deriving Repr, DecidableEq

/-- Feature extraction from agent_collector.py: token falls back to QUBIC
when the optional token_symbol is absent or empty (Python truthiness). -/
def extract_features (tx : Transaction) : FeatureRecord :=
  { amount := tx.amount
    token := match tx.token_symbol with
             | none => ("QUBIC")
             | some s => if s = ("") then ("QUBIC") else s
    is_anomaly := tx.is_anomaly }

/-- Wallet history summary handed to the scorer (built in
multi_agent_orchestrator.analyze_transaction from the transaction
history). -/
structure WalletHistory where
  avg_amount : ℚ
  transaction_count : Nat
  total_volume : ℚ
deriving Repr

/-- Baseline amount used by the scorer: settings carry no
RISK_BASELINE_AMOUNT attribute, so getattr returns the default 10000. -/
def RISK_BASELINE_AMOUNT : ℚ := 10000

/-- Factor 1 of compute_risk_score (agent_risk_analyst.py lines 313-334):
amount relative to the baseline. -/
def amount_impact (tx : Transaction) : ℚ :=
  let q := tx.amount / RISK_BASELINE_AMOUNT
  if q > 10 then min 50 (q * 2)
  else if q > 5 then 20
  else 0

/-- Factor 2 of compute_risk_score: number of transactions from the same
source inside the trailing activity window (600 seconds, default 10
minutes), counting the one being scored, which the code appends before
counting. -/
def tx_frequency (prior_activity : List Int) (now : Int) : Nat :=
  ((prior_activity ++ [now]).filter (fun t => now - 600 ≤ t)).length

/-- Impact of the activity frequency (agent_risk_analyst.py lines
355-372). -/
def activity_impact (freq : Nat) : ℚ :=
  if freq > 50 then 40
  else if freq > 20 then 20
  else 0

/-- Static transaction-type risk table of compute_risk_score, with default
10 for unknown types. -/
def tx_type_risk (t : String) : ℚ :=
  if t = ("transfer") then 0
  else if t = ("wash_trading") then 80
  else if t = ("flash_loan") then 90
  else if t = ("contract_call") then 15
  else if t = ("mixer") then 95
  else if t = ("spam") then 70
  else 10

/-- Factor 3 of compute_risk_score: type risk is only added when above the
low-noise threshold 20.  An empty type string is Python-falsy and falls
back to transfer. -/
def type_impact (tx : Transaction) : ℚ :=
  let t := if tx.type = ("") then ("transfer") else tx.type
  let r := tx_type_risk t
  if r > 20 then r else 0

/-- Factor 4 of compute_risk_score: deviation from the wallet's historical
average amount, only when a positive average is known. -/
def deviation_impact (tx : Transaction) (wallet_history : Option WalletHistory) : ℚ :=
  match wallet_history with
  | none => 0
  | some wh =>
      if wh.avg_amount > 0 then
        let d := |tx.amount - wh.avg_amount| / wh.avg_amount
        if d > 5 then min 30 (d * 5) else 0
      else 0

/-- Factor 5 of compute_risk_score: self-transfer detection. -/
def self_transfer_impact (tx : Transaction) : ℚ :=
  if tx.source_id = tx.dest_id then 70 else 0

/-- Accumulated raw risk score of compute_risk_score before the final
clamp, in the order the Python code adds the factors.  The features
argument is received but never read, exactly as in the source. -/
def raw_risk_score (tx : Transaction) (features : FeatureRecord)
    (wallet_history : Option WalletHistory)
    (prior_activity : List Int) (now : Int) : ℚ :=
  amount_impact tx + activity_impact (tx_frequency prior_activity now)
    + type_impact tx + deviation_impact tx wallet_history
    + self_transfer_impact tx

/-- Level mapping of compute_risk_score (agent_risk_analyst.py lines
424-431). -/
def compute_level (s : ℚ) : String :=
  if s ≥ 90 then ("CRITICAL")
  else if s ≥ 70 then ("HIGH")
  else if s ≥ 40 then ("MEDIUM")
  else ("LOW")

/-- Embeds agent_risk_analyst.py, compute_risk_score: returns the clamped
score together with the level derived from the accumulated score.  The
mutable wallet_activity state becomes the explicit prior_activity list of
timestamps for the source wallet plus the current time. -/
def compute_risk_score (tx : Transaction) (features : FeatureRecord)
    (wallet_history : Option WalletHistory)
    (prior_activity : List Int) (now : Int) : ℚ × String :=
  let rs := raw_risk_score tx features wallet_history prior_activity now
  (min 100 (max 0 rs), compute_level rs)

/-- Level mapping of agent_risk_analyst.py, _fallback_analysis (lines
272-277). -/
def fallback_level (s : ℚ) : String :=
  if s ≥ 70 then ("CRITICAL")
  else if s ≥ 40 then ("HIGH")
  else if s ≥ 20 then ("MEDIUM")
  else ("LOW")

/-- Level mapping of orchestrator.py, AegisOrchestrator.analyze_risk
(lines 91-98). -/
def analyze_risk_level (s : ℚ) : String :=
  if s ≥ 70 then ("CRITICAL")
  else if s ≥ 40 then ("HIGH")
  else if s ≥ 20 then ("MEDIUM")
  else ("LOW")

/-- Modelled from the spec: the single canonical level table of section
4.3 (score at least 90 CRITICAL, at least 70 HIGH, at least 40 MEDIUM,
else LOW), stated independently of the code for comparison. -/
def canonical_level (s : ℚ) : String :=
  if s ≥ 90 then ("CRITICAL")
  else if s ≥ 70 then ("HIGH")
  else if s ≥ 40 then ("MEDIUM")
  else ("LOW")

/-- Embeds agent_risk_analyst.py, classify_priority: auto-triage priority
(1 highest to 5 lowest) with an optional predicted-risk adjustment, and a
coarse category. -/
def classify_priority (risk_score : ℚ) (predicted_risk : Option ℚ) : Int × String :=
  let p : Int :=
    if risk_score ≥ 90 then 1
    else if risk_score ≥ 75 then 2
    else if risk_score ≥ 50 then 3
    else if risk_score ≥ 25 then 4
    else 5
  let p : Int :=
    match predicted_risk with
    | some pr =>
        if pr > risk_score + 20 then max 1 (p - 1)
        else if pr < risk_score - 20 then min 5 (p + 1)
        else p
    | none => p
  let category : String :=
    if risk_score ≥ 85 then ("WHALE_DUMP")
    else if risk_score ≥ 70 then ("SUSPICIOUS_CLUSTER")
    else if risk_score ≥ 60 then ("SPAM_ACTIVITY")
    else if risk_score ≥ 45 then ("ANOMALOUS_PATTERN")
    else ("NORMAL_ACTIVITY")
  (p, category)

/-- Number of recorded high-severity timestamps inside the trailing
60-second window (multi_agent_orchestrator.adjust_sensitivity lines
77-85). -/
def attack_count (events : List Int) (now : Int) : Nat :=
  (events.filter (fun t => now - 60 ≤ t)).length

/-- Embeds multi_agent_orchestrator.py, adjust_sensitivity: maps the
recent high-severity count to the DEFCON level and the adaptive alert
threshold. -/
def adjust_sensitivity (events : List Int) (now : Int) : Nat × ℚ :=
  let c := attack_count events now
  if 10 ≤ c then (1, 50)
  else if 5 ≤ c then (2, 60)
  else if 3 ≤ c then (3, 70)
  else if 1 ≤ c then (4, 75)
  else (5, 80)

/-- Embeds the DEFCON escalation applied inside analyze_transaction
(multi_agent_orchestrator.py lines 202-209 and, identically, lines
263-269): in DEFCON 1 or 2, a score at or above the adaptive threshold
upgrades MEDIUM to HIGH with a +10 bump and HIGH to CRITICAL with +5,
each clamped to 100; every other level is left untouched. -/
def apply_defcon (defcon : Nat) (threshold score : ℚ) (level : String) : ℚ × String :=
  if defcon ≤ 2 ∧ threshold ≤ score then
    if level = ("MEDIUM") then (min 100 (score + 10), ("HIGH"))
    else if level = ("HIGH") then (min 100 (score + 5), ("CRITICAL"))
    else (score, level)
  else (score, level)

/-- Python dict lookup on an insertion-ordered association list. -/
def dictGet {κ β : Type} [DecidableEq κ] (k : κ) : List (κ × β) → Option β
  | [] => none
  | (k', v) :: rest => if k' = k then some v else dictGet k rest

/-- Python dict assignment: update in place when the key exists, append at
the end otherwise (dicts preserve insertion order). -/
def dictSet {κ β : Type} [DecidableEq κ] (k : κ) (v : β) : List (κ × β) → List (κ × β)
  | [] => [(k, v)]
  | (k', v') :: rest =>
      if k' = k then (k, v) :: rest else (k', v') :: dictSet k v rest

/-- The Python idiom of initialising a missing dict key with a default. -/
def ensureKey {κ β : Type} [DecidableEq κ] (k : κ) (v : β)
    (d : List (κ × β)) : List (κ × β) :=
  match dictGet k d with
  | some _ => d
  | none => d ++ [(k, v)]

/-- Python set insertion, modelled on an insertion-ordered duplicate-free
list. -/
def setAdd {κ : Type} [DecidableEq κ] (x : κ) (s : List κ) : List κ :=
  if x ∈ s then s else s ++ [x]

/-- Stable insertion step of a descending sort by key: an element moves in
front only of elements with a key at most its own, so ties keep their
original order, as Python's stable sorted with reverse=True does. -/
def insertDescBy {α β : Type} [LinearOrder β] (key : α → β) (x : α) :
    List α → List α
  | [] => [x]
  | y :: ys => if key y ≤ key x then x :: y :: ys else y :: insertDescBy key x ys

/-- Stable descending sort by key, modelling Python's
sorted(..., key=..., reverse=True). -/
def sortDescBy {α β : Type} [LinearOrder β] (key : α → β) : List α → List α
  | [] => []
  | x :: xs => insertDescBy key x (sortDescBy key xs)

/-- Per-wallet entry of multi_agent_orchestrator.wallet_graph: transaction
ticks, counterpart-frequency dict, outgoing volume, risk high-water mark
and a role tag. -/
structure WalletData where
  wid : String
  transactions : List Nat
  counterparts : List (String × Nat)
  total_volume : ℚ
  risk_score : ℚ
  role : String
deriving Repr, DecidableEq

/-- Fresh wallet entry as initialised by _update_wallet_graph. -/
def newWalletData (w : String) : WalletData :=
  { wid := w, transactions := [], counterparts := [], total_volume := 0,
    risk_score := 0, role := ("normal") }

/-- Mutable ledger state of MultiAgentOrchestrator: the adjacency dict of
neighbour sets, the extended wallet dict and the bounded transaction
history. -/
structure OrchestratorState where
  adjacency : List (String × List String)
  wallet_graph : List (String × WalletData)
  transaction_history : List Transaction
deriving Repr

/-- State of a freshly constructed orchestrator. -/
def emptyState : OrchestratorState :=
  { adjacency := [], wallet_graph := [], transaction_history := [] }

/-- Embeds multi_agent_orchestrator.py, _update_wallet_graph: adds both
directions to the adjacency sets, updates both endpoint wallet entries
(ticks, outgoing volume on the source only, counterpart counts on both
sides) and appends to the history, trimmed to its last 1000 entries. -/
def update_wallet_graph (st : OrchestratorState) (tx : Transaction) :
    OrchestratorState :=
  let source := tx.source_id
  let dest := tx.dest_id
  let adj := ensureKey source [] st.adjacency
  let adj := ensureKey dest [] adj
  let adj := dictSet source (setAdd dest ((dictGet source adj).getD [])) adj
  let adj := dictSet dest (setAdd source ((dictGet dest adj).getD [])) adj
  let wg := ensureKey source (newWalletData source) st.wallet_graph
  let srcData := (dictGet source wg).getD (newWalletData source)
  let srcData :=
    { srcData with
      transactions := srcData.transactions ++ [tx.tick]
      total_volume := srcData.total_volume + tx.amount
      counterparts :=
        dictSet dest (((dictGet dest srcData.counterparts).getD 0) + 1)
          srcData.counterparts }
  let wg := dictSet source srcData wg
  let wg := ensureKey dest (newWalletData dest) wg
  let dstData := (dictGet dest wg).getD (newWalletData dest)
  let dstData :=
    { dstData with
      transactions := dstData.transactions ++ [tx.tick]
      counterparts :=
        dictSet source (((dictGet source dstData.counterparts).getD 0) + 1)
          dstData.counterparts }
  let wg := dictSet dest dstData wg
  let hist := st.transaction_history ++ [tx]
  let hist := if hist.length > 1000 then hist.drop (hist.length - 1000) else hist
  { adjacency := adj, wallet_graph := wg, transaction_history := hist }

/-- Result record of _get_wallet_insights. -/
structure WalletInsights where
  found : Bool
  transaction_count : Nat
  total_volume : ℚ
  unique_counterparts : Nat
  top_counterparts : List (String × Nat)
deriving Repr, DecidableEq

/-- Embeds multi_agent_orchestrator.py, _get_wallet_insights: summary of a
wallet entry, with the top five counterparts by descending count. -/
def get_wallet_insights (st : OrchestratorState) (w : String) : WalletInsights :=
  match dictGet w st.wallet_graph with
  | none =>
      { found := false, transaction_count := 0, total_volume := 0,
        unique_counterparts := 0, top_counterparts := [] }
  | some d =>
      { found := true
        transaction_count := d.transactions.length
        total_volume := d.total_volume
        unique_counterparts := d.counterparts.length
        top_counterparts := (sortDescBy (fun p => p.2) d.counterparts).take 5 }

/-- Undirected edge key of get_wallet_graph: the pair sorted
lexicographically, as Python's tuple(sorted([a, b])). -/
def edge_key (a b : String) : String × String :=
  if a ≤ b then (a, b) else (b, a)

/-- Embeds the edge construction of multi_agent_orchestrator.py,
get_wallet_graph (lines 570-623): wallets are ranked by descending volume,
the first max_nodes become the node map, and every adjacency entry whose
endpoints are both in the node map bumps the weight of its sorted edge
key. -/
def wallet_graph_edges (st : OrchestratorState) (max_nodes : Nat) :
    List ((String × String) × Nat) :=
  let top := (sortDescBy (fun p => p.2.total_volume) st.wallet_graph).take max_nodes
  let node_ids := top.map (fun p => p.1)
  node_ids.foldl
    (fun ec w =>
      ((dictGet w st.adjacency).getD []).foldl
        (fun ec c =>
          if c ∈ node_ids then
            dictSet (edge_key w c) (((dictGet (edge_key w c) ec).getD 0) + 1) ec
          else ec)
        ec)
    []

/-- Number of recorded transactions between two wallets, in either
direction. -/
def tx_between (st : OrchestratorState) (a b : String) : Nat :=
  (st.transaction_history.filter
    (fun tx => (tx.source_id = a ∧ tx.dest_id = b)
             ∨ (tx.source_id = b ∧ tx.dest_id = a))).length

/-- Ingestion boundary step: pydantic validation happens when the
Transaction model is constructed, before the orchestrator runs, so a
rejected payload produces an error message and leaves the ledger state
untouched. -/
def ingest_step (r : RawTransaction) (st : OrchestratorState) :
    Option String × OrchestratorState :=
  match validate_transaction r with
  | .error e => (some e, st)
  | .ok tx => (none, update_wallet_graph st tx)

/-- Last k elements of a list, modelling the Python slice l[-k:]. -/
def lastN (k : Nat) (l : List ℚ) : List ℚ :=
  l.drop (l.length - k)

/-- Arithmetic mean, as numpy's mean on a nonempty list. -/
def mean (l : List ℚ) : ℚ :=
  l.sum / l.length

/-- Result record of agent_predictor.AgentPredictor.forecast.  The wallet
history is modelled by its list of recorded scores, oldest first; the
timestamps attached to the deque entries only decorate the output and
never influence the computation. -/
structure ForecastResult where
  history : List ℚ
  fpoints : List ℚ
  trend : String
  error : Option String
deriving Repr, DecidableEq

/-- Trend detection of forecast (agent_predictor.py lines 212-226): the
mean of the last ten scores against the mean of the ten before them (or of
the first five recent ones when fewer than twenty points exist), with a
margin of five. -/
def forecast_trend (scores : List ℚ) : String :=
  if scores.length ≥ 10 then
    let recent := lastN 10 scores
    let older :=
      if scores.length ≥ 20 then (scores.drop (scores.length - 20)).take 10
      else recent.take 5
    if mean recent > mean older + 5 then ("UP")
    else if mean recent < mean older - 5 then ("DOWN")
    else ("STABLE")
  else ("STABLE")

/-- Exponential moving average of forecast (agent_predictor.py lines
231-235): seeded with the most recent score, folded over the last ten
scores with smoothing factor 3/10. -/
def ema_of (scores : List ℚ) : ℚ :=
  (lastN 10 scores).foldl (fun e s => 3/10 * s + (1 - 3/10) * e)
    (scores.getLastD 0)

/-- Clamp of each forecast point to the score range. -/
def clamp_score (x : ℚ) : ℚ :=
  max 0 (min 100 x)

/-- Embeds agent_predictor.py, forecast: fewer than two recorded points
yield the explicit insufficient-data result; otherwise thirty forecast
points are extrapolated from the exponential moving average with a trend
adjustment of one half per step, scaled by a tenth, each clamped to
[0, 100]. -/
def forecast (scores : List ℚ) : ForecastResult :=
  if scores.length < 2 then
    { history := [], fpoints := [], trend := ("STABLE"),
      error := some ("Insufficient data") }
  else
    let tr := forecast_trend scores
    let adj : ℚ := if tr = ("UP") then 1/2 else if tr = ("DOWN") then -(1/2) else 0
    let e := ema_of scores
    { history := scores
      fpoints := (List.range 30).map (fun i => clamp_score (e + adj * ((i : ℚ) + 1) / 10))
      trend := tr
      error := none }

/-- Embeds app/models/market.py, TokenSignal (the fields the signal
history stores). -/
structure TokenSignal where
  sid : String
  token_symbol : String
  signal_type : String
  risk_score : ℚ
  risk_level : String
  message : String
deriving Repr, DecidableEq

/-- Signal-history capacity: MarketIntelService(max_signals=200). -/
def MAX_SIGNALS : Nat := 200

/-- Embeds market_intel.py, add_signal: appendleft on a deque with maxlen
200, so the newest signal sits at the front and the oldest entry at the
back is evicted on overflow. -/
def add_signal (s : TokenSignal) (hist : List TokenSignal) : List TokenSignal :=
  (s :: hist).take MAX_SIGNALS

/-- Embeds market_intel.py, get_recent_signals: the first limit entries of
the most-recent-first history. -/
def get_recent_signals (limit : Nat) (hist : List TokenSignal) : List TokenSignal :=
  hist.take limit

/-- Embeds the signal-emission guard of analyze_transaction
(multi_agent_orchestrator.py lines 346-357): a TokenSignal is created and
stored only when the assessed level is HIGH or CRITICAL; otherwise nothing
is emitted and the history is untouched. -/
def emit_token_signal (risk_level : String) (s : TokenSignal)
    (hist : List TokenSignal) : Option TokenSignal × List TokenSignal :=
  if risk_level = ("HIGH") ∨ risk_level = ("CRITICAL") then
    (some s, add_signal s hist)
  else (none, hist)

/-- Ledger state after recording a transaction from A to B of amount 100
and one back from B to A of amount 50, starting from a fresh
orchestrator. -/
def two_tx_state (A B : String) : OrchestratorState :=
  update_wallet_graph
    (update_wallet_graph emptyState
      { source_id := A, dest_id := B, amount := 100, tick := 1,
        type := ("transfer"), signature := ("s1") })
    { source_id := B, dest_id := A, amount := 50, tick := 2,
      type := ("transfer"), signature := ("s2") }

/-- Ingestion payload with every required field present but a negative
amount. -/
def negAmountRaw : RawTransaction :=
  { source_id := some ("A1"), dest_id := some ("B1"), amount := some (-5),
    tick := some 1, signature := some ("sg") }

/-- Ingestion payload whose required source id is missing. -/
def missingSourceRaw : RawTransaction :=
  { dest_id := some ("B1"), amount := some 1, tick := some 1,
    signature := some ("sg") }

/-- Sample self-transfer transaction. -/
def sampleSelfTx : Transaction :=
  { source_id := ("W1"), dest_id := ("W1"), amount := 5, tick := 0,
    type := ("transfer"), signature := ("sg") }

/-- Sample stored signal. -/
def sampleSignal : TokenSignal :=
  { sid := ("sig-1"), token_symbol := ("QX"), signal_type := ("WHALE_DUMP"),
    risk_score := 80, risk_level := ("HIGH"), message := ("m") }

/-! Theorems.  Claim identifiers refer to the frozen claim list. -/

/-- Every factor of the scorer contributes a non-negative impact. -/
theorem amount_impact_nonneg (tx : Transaction) : 0 ≤ amount_impact tx := by
  unfold amount_impact
  dsimp only
  split_ifs with h1 h2
  · exact le_min (by norm_num) (by nlinarith)
  · norm_num
  · norm_num

theorem activity_impact_nonneg (freq : Nat) : 0 ≤ activity_impact freq := by
  unfold activity_impact
  split_ifs <;> norm_num

theorem tx_type_risk_nonneg (t : String) : 0 ≤ tx_type_risk t := by
  unfold tx_type_risk
  split_ifs <;> norm_num

theorem type_impact_nonneg (tx : Transaction) : 0 ≤ type_impact tx := by
  unfold type_impact
  dsimp only
  split_ifs with h1 h2 h3
  · linarith
  · norm_num
  · linarith
  · norm_num

theorem deviation_impact_nonneg (tx : Transaction) (wh : Option WalletHistory) :
    0 ≤ deviation_impact tx wh := by
  cases wh with
  | none => simp [deviation_impact]
  | some w =>
      simp only [deviation_impact]
      split_ifs with h1 h2
      · exact le_min (by norm_num) (by nlinarith)
      · norm_num
      · norm_num

theorem self_transfer_impact_nonneg (tx : Transaction) :
    0 ≤ self_transfer_impact tx := by
  unfold self_transfer_impact
  split_ifs <;> norm_num

theorem raw_risk_score_nonneg (tx : Transaction) (features : FeatureRecord)
    (wh : Option WalletHistory) (pa : List Int) (now : Int) :
    0 ≤ raw_risk_score tx features wh pa now := by
  unfold raw_risk_score
  have h1 := amount_impact_nonneg tx
  have h2 := activity_impact_nonneg (tx_frequency pa now)
  have h3 := type_impact_nonneg tx
  have h4 := deviation_impact_nonneg tx wh
  have h5 := self_transfer_impact_nonneg tx
  linarith

/-- C1: for every transaction, feature record, optional wallet history and
activity context, the score returned by compute_risk_score lies in
[0, 100]. -/
theorem compute_risk_score_bounds (tx : Transaction) (features : FeatureRecord)
    (wh : Option WalletHistory) (pa : List Int) (now : Int) :
    0 ≤ (compute_risk_score tx features wh pa now).1 ∧
    (compute_risk_score tx features wh pa now).1 ≤ 100 := by
  unfold compute_risk_score
  exact ⟨le_min (by norm_num) (le_max_left 0 _), min_le_left _ _⟩

/-- C2 counterexample: at score 75 the level mapping of
AegisOrchestrator.analyze_risk disagrees with the canonical table (which
compute_risk_score follows): it answers CRITICAL where the canonical table
answers HIGH, so not every place maps scores through the single canonical
table. -/
theorem level_tables_disagree_at_75 :
    analyze_risk_level 75 = ("CRITICAL") ∧ canonical_level 75 = ("HIGH") ∧
    analyze_risk_level 75 ≠ canonical_level 75 := by
  have h1 : analyze_risk_level 75 = ("CRITICAL") := by norm_num [analyze_risk_level]
  have h2 : canonical_level 75 = ("HIGH") := by norm_num [canonical_level]
  refine ⟨h1, h2, ?_⟩
  rw [h1, h2]
  decide

/-- C2 amended: compute_risk_score follows the canonical table, while
AegisOrchestrator.analyze_risk and _fallback_analysis share a different
table (70 CRITICAL, 40 HIGH, 20 MEDIUM); the two tables agree exactly on
scores below 20 or at least 90. -/
theorem level_tables_amended (s : ℚ) :
    compute_level s = canonical_level s ∧
    analyze_risk_level s = fallback_level s ∧
    (fallback_level s = canonical_level s ↔ (s < 20 ∨ 90 ≤ s)) := by
  refine ⟨rfl, rfl, ?_⟩
  unfold fallback_level canonical_level
  split_ifs <;> simp_all <;>
    first
      | linarith
      | (constructor <;> linarith)
      | (left; linarith)
      | (right; linarith)
      | (push_neg; constructor <;> linarith)

/-- Witness for the amended C2 statement at the concrete score 10. -/
theorem level_tables_amended_witness : fallback_level 10 = canonical_level 10 :=
  ((level_tables_amended 10).2.2).mpr (Or.inl (by norm_num))

/-- C7: a self-transfer always accumulates at least the dominant 70 impact,
so its final (clamped) score is at least 70, before any sensitivity
adjustment. -/
theorem self_transfer_scores_at_least_70 (tx : Transaction)
    (features : FeatureRecord) (wh : Option WalletHistory)
    (pa : List Int) (now : Int) (h : tx.source_id = tx.dest_id) :
    70 ≤ (compute_risk_score tx features wh pa now).1 := by
  have hself : self_transfer_impact tx = 70 := by
    unfold self_transfer_impact
    exact if_pos h
  have hraw : 70 ≤ raw_risk_score tx features wh pa now := by
    unfold raw_risk_score
    have h1 := amount_impact_nonneg tx
    have h2 := activity_impact_nonneg (tx_frequency pa now)
    have h3 := type_impact_nonneg tx
    have h4 := deviation_impact_nonneg tx wh
    linarith
  unfold compute_risk_score
  exact le_min (by norm_num) (le_max_of_le_right hraw)

/-- Witness for C7: a concrete self-transfer of amount 5 reaches a score of
at least 70. -/
theorem self_transfer_witness :
    70 ≤ (compute_risk_score sampleSelfTx (extract_features sampleSelfTx) none [] 0).1 :=
  self_transfer_scores_at_least_70 sampleSelfTx (extract_features sampleSelfTx)
    none [] 0 rfl

/-- C10: classify_priority always yields a priority between 1 and 5 (the
predicted-risk adjustment is clamped) and a category from the fixed
five-element set. -/
theorem classify_priority_range (s : ℚ) (pr : Option ℚ) :
    1 ≤ (classify_priority s pr).1 ∧ (classify_priority s pr).1 ≤ 5 ∧
    (classify_priority s pr).2 ∈
      [("WHALE_DUMP"), ("SUSPICIOUS_CLUSTER"), ("SPAM_ACTIVITY"),
       ("ANOMALOUS_PATTERN"), ("NORMAL_ACTIVITY")] := by
  unfold classify_priority
  cases pr <;> dsimp only <;> split_ifs <;>
    exact ⟨by norm_num, by norm_num, by decide⟩

/-- C3: the sensitivity controller is a pure function of the high-severity
count in the trailing 60-second window, follows the breakpoint table
exactly, and returns to level 5 with threshold 80 once every recorded
timestamp has aged out of the window. -/
theorem sensitivity_controller_table (events : List Int) (now : Int) :
    (10 ≤ attack_count events now → adjust_sensitivity events now = (1, 50)) ∧
    (5 ≤ attack_count events now → attack_count events now < 10 →
      adjust_sensitivity events now = (2, 60)) ∧
    (3 ≤ attack_count events now → attack_count events now < 5 →
      adjust_sensitivity events now = (3, 70)) ∧
    (1 ≤ attack_count events now → attack_count events now < 3 →
      adjust_sensitivity events now = (4, 75)) ∧
    (attack_count events now = 0 → adjust_sensitivity events now = (5, 80)) ∧
    ((∀ t ∈ events, t < now - 60) → adjust_sensitivity events now = (5, 80)) ∧
    (∀ (events2 : List Int) (now2 : Int),
      attack_count events now = attack_count events2 now2 →
      adjust_sensitivity events now = adjust_sensitivity events2 now2) := by
  refine ⟨?_, ?_, ?_, ?_, ?_, ?_, ?_⟩
  · intro h
    unfold adjust_sensitivity
    dsimp only
    rw [if_pos h]
  · intro h1 h2
    unfold adjust_sensitivity
    dsimp only
    rw [if_neg (by omega), if_pos h1]
  · intro h1 h2
    unfold adjust_sensitivity
    dsimp only
    rw [if_neg (by omega), if_neg (by omega), if_pos h1]
  · intro h1 h2
    unfold adjust_sensitivity
    dsimp only
    rw [if_neg (by omega), if_neg (by omega), if_neg (by omega), if_pos h1]
  · intro h
    unfold adjust_sensitivity
    dsimp only
    rw [if_neg (by omega), if_neg (by omega), if_neg (by omega), if_neg (by omega)]
  · intro h
    have hf : attack_count events now = 0 := by
      unfold attack_count
      rw [List.length_eq_zero, List.filter_eq_nil_iff]
      intro a ha
      simp only [decide_eq_true_eq, not_le]
      exact h a ha
    unfold adjust_sensitivity
    dsimp only
    rw [hf]
    norm_num
  · intro events2 now2 h
    unfold adjust_sensitivity
    dsimp only
    rw [h]

/-- Witness for C3: three timestamps inside the window give level 3 with
threshold 70, and the same timestamps fully aged out give level 5 with
threshold 80. -/
theorem sensitivity_controller_witness :
    adjust_sensitivity [0, 10, 20] 30 = (3, 70) ∧
    adjust_sensitivity [0, 10, 20] 200 = (5, 80) := by
  have h := sensitivity_controller_table [0, 10, 20] 30
  have h2 := sensitivity_controller_table [0, 10, 20] 200
  exact ⟨h.2.2.1 (by decide) (by decide), h2.2.2.2.2.2.1 (by decide)⟩

/-- C4 counterexample: with the controller in DEFCON 2 and threshold 60, a
MEDIUM assessment whose score is exactly 60 does not exceed the threshold,
yet the code escalates it to HIGH with a +10 bump, contradicting the
claimed strict-exceedance condition under which it should be left
unchanged. -/
theorem defcon_boundary_counterexample :
    ¬ ((60 : ℚ) > 60) ∧
    apply_defcon 2 60 60 ("MEDIUM") = (70, ("HIGH")) ∧
    apply_defcon 2 60 60 ("MEDIUM") ≠ (60, ("MEDIUM")) := by
  refine ⟨by norm_num, ?_, ?_⟩
  · norm_num [apply_defcon, Prod.ext_iff]
  · norm_num [apply_defcon, Prod.ext_iff]

/-- C4 amended: the assessment is altered exactly when the DEFCON level is
1 or 2, the score is at least (not strictly above) the threshold, and the
level is MEDIUM or HIGH; in that case MEDIUM becomes HIGH with +10 and
HIGH becomes CRITICAL with +5, clamped to 100, and in every other case
score and level are returned unchanged. -/
theorem defcon_escalation_amended (d : Nat) (t s : ℚ) (l : String) :
    (apply_defcon d t s l = (s, l) ↔
      ¬(d ≤ 2 ∧ t ≤ s ∧ (l = ("MEDIUM") ∨ l = ("HIGH")))) ∧
    (d ≤ 2 → t ≤ s →
      apply_defcon d t s ("MEDIUM") = (min 100 (s + 10), ("HIGH")) ∧
      apply_defcon d t s ("HIGH") = (min 100 (s + 5), ("CRITICAL"))) := by
  constructor
  · unfold apply_defcon
    split_ifs with h1 h2 h3
    · subst h2
      simp [Prod.ext_iff, h1.1, h1.2]
    · subst h3
      simp [Prod.ext_iff, h1.1, h1.2, h2]
    · simp [Prod.ext_iff, h1.1, h1.2, h2, h3]
    · simp only [not_and] at h1
      constructor
      · intro _
        intro hc
        exact absurd hc.2.1 (fun hts => (h1 hc.1) hts)
      · intro _
        rfl
  · intro hd hts
    unfold apply_defcon
    constructor
    · rw [if_pos ⟨hd, hts⟩, if_pos rfl]
    · rw [if_pos ⟨hd, hts⟩, if_neg (by decide), if_pos rfl]

/-- Witness for the amended C4 statement: DEFCON 1, threshold 50, score 60,
level MEDIUM escalates to HIGH at score 70. -/
theorem defcon_escalation_witness :
    apply_defcon 1 50 60 ("MEDIUM") = (70, ("HIGH")) := by
  have h := (defcon_escalation_amended 1 50 60 ("MEDIUM")).2
    (by norm_num) (by norm_num)
  rw [h.1]
  norm_num

/-- C6 counterexample: a payload whose amount is -5 but whose required
fields are all present passes pydantic validation of the Transaction
model, so a negative amount is not rejected at the ingestion boundary. -/
theorem negative_amount_accepted :
    validate_transaction negAmountRaw =
      .ok { source_id := ("A1"), dest_id := ("B1"), amount := -5, tick := 1,
            type := ("transfer"), signature := ("sg") } ∧
    negAmountRaw.amount = some (-5) :=
  ⟨rfl, rfl⟩

/-- C6 amended: a payload missing any of the five required fields is
rejected at the ingestion boundary with a validation error and the
pipeline state is left untouched, while a payload with all required
fields present is accepted regardless of the sign of its amount. -/
theorem ingestion_rejection_amended (r : RawTransaction) (st : OrchestratorState) :
    ((r.source_id = none ∨ r.dest_id = none ∨ r.amount = none ∨
      r.tick = none ∨ r.signature = none) →
      (ingest_step r st).1.isSome ∧ (ingest_step r st).2 = st) ∧
    (r.source_id.isSome → r.dest_id.isSome → r.amount.isSome →
      r.tick.isSome → r.signature.isSome → (ingest_step r st).1 = none) := by
  obtain ⟨os, od, oa, ot, oty, osig, _, _, _, _⟩ := r
  cases os <;> cases od <;> cases oa <;> cases ot <;> cases osig <;>
    simp [ingest_step, validate_transaction]

/-- Witness for the amended C6 statement: a payload with a missing source
id leaves the empty state untouched, and the negative-amount payload is
accepted. -/
theorem ingestion_rejection_witness :
    (ingest_step missingSourceRaw emptyState).2 = emptyState ∧
    (ingest_step negAmountRaw emptyState).1 = none :=
  ⟨((ingestion_rejection_amended missingSourceRaw emptyState).1 (Or.inl rfl)).2,
   (ingestion_rejection_amended negAmountRaw emptyState).2 rfl rfl rfl rfl rfl⟩

/-- List membership of the default last element of a nonempty list. -/
theorem getLastD_mem : ∀ (l : List ℚ) (d : ℚ), l ≠ [] → l.getLastD d ∈ l
  | [], _, h => absurd rfl h
  | [a], d, _ => by simp [List.getLastD_cons]
  | a :: b :: m, d, _ => by
      rw [List.getLastD_cons]
      exact List.mem_cons_of_mem a (getLastD_mem (b :: m) a (by simp))

/-- C9: an assessment below HIGH never emits a signal nor touches the
history; the history never exceeds its capacity of 200; adding a signal to
a full history evicts exactly the oldest (last) entry; and the
most-recent-first query returns the whole capacity-bounded set whenever the
limit covers it. -/
theorem signal_emitter_invariants :
    (∀ (lvl : String) (s : TokenSignal) (hist : List TokenSignal),
      lvl ≠ ("HIGH") → lvl ≠ ("CRITICAL") →
      emit_token_signal lvl s hist = (none, hist)) ∧
    (∀ (s : TokenSignal) (hist : List TokenSignal),
      hist.length ≤ MAX_SIGNALS → (add_signal s hist).length ≤ MAX_SIGNALS) ∧
    (∀ (s : TokenSignal) (hist : List TokenSignal),
      hist.length = MAX_SIGNALS → add_signal s hist = s :: hist.dropLast) ∧
    (∀ (k : Nat) (hist : List TokenSignal),
      hist.length ≤ k → get_recent_signals k hist = hist) := by
  refine ⟨?_, ?_, ?_, ?_⟩
  · intro lvl s hist h1 h2
    unfold emit_token_signal
    rw [if_neg]
    intro hc
    rcases hc with hc | hc
    · exact h1 hc
    · exact h2 hc
  · intro s hist _
    unfold add_signal
    simpa using min_le_left MAX_SIGNALS (hist.length + 1)
  · intro s hist h
    unfold add_signal
    unfold MAX_SIGNALS
    rw [List.dropLast_eq_take]
    rw [h]
    rfl
  · intro k hist h
    unfold get_recent_signals
    exact List.take_of_length_le h

/-- Witness for C9: a LOW assessment emits nothing on the empty history, a
full history of 200 copies of the sample signal evicts its last entry, and
a query whose limit covers a short history returns it whole. -/
theorem signal_emitter_witness :
    emit_token_signal ("LOW") sampleSignal [] = (none, []) ∧
    add_signal sampleSignal (List.replicate 200 sampleSignal) =
      sampleSignal :: (List.replicate 200 sampleSignal).dropLast ∧
    get_recent_signals 20 [sampleSignal] = [sampleSignal] := by
  refine ⟨?_, ?_, ?_⟩
  · exact signal_emitter_invariants.1 ("LOW") sampleSignal [] (by decide) (by decide)
  · exact signal_emitter_invariants.2.2.1 sampleSignal _
      (by rw [List.length_replicate, MAX_SIGNALS])
  · exact signal_emitter_invariants.2.2.2 20 [sampleSignal] (by simp)

/-- The mean of a nonempty list whose elements are all equal is that
element. -/
theorem mean_const (l : List ℚ) (c : ℚ) (hall : ∀ x ∈ l, x = c)
    (hne : l ≠ []) : mean l = c := by
  unfold mean
  rw [List.sum_eq_card_nsmul l c hall, nsmul_eq_mul]
  have hlen : (l.length : ℚ) ≠ 0 :=
    Nat.cast_ne_zero.mpr (fun h0 => hne (List.length_eq_zero.mp h0))
  exact mul_div_cancel_left₀ c hlen

/-- The exponential-smoothing fold is a fixed point on a constant
series. -/
theorem foldl_ema_const (c : ℚ) : ∀ (l : List ℚ), (∀ x ∈ l, x = c) →
    l.foldl (fun e s => 3/10 * s + (1 - 3/10) * e) c = c
  | [], _ => rfl
  | a :: m, h => by
      rw [List.foldl_cons, h a (by simp)]
      have he : 3/10 * c + (1 - 3/10) * c = c := by ring
      rw [he]
      exact foldl_ema_const c m (fun x hx => h x (by simp [hx]))

/-- The exponential moving average of a constant series is the
constant. -/
theorem ema_const (scores : List ℚ) (c : ℚ) (hall : ∀ x ∈ scores, x = c)
    (hne : scores ≠ []) : ema_of scores = c := by
  unfold ema_of
  rw [hall _ (getLastD_mem scores 0 hne)]
  refine foldl_ema_const c (lastN 10 scores) (fun x hx => hall x ?_)
  unfold lastN at hx
  exact List.mem_of_mem_drop hx

/-- Trend detection on a constant series always answers STABLE. -/
theorem forecast_trend_const (scores : List ℚ) (c : ℚ)
    (hall : ∀ x ∈ scores, x = c) : forecast_trend scores = ("STABLE") := by
  by_cases h10 : scores.length ≥ 10
  · have hrec_all : ∀ x ∈ lastN 10 scores, x = c := by
      intro x hx
      unfold lastN at hx
      exact hall x (List.mem_of_mem_drop hx)
    have hrec_len : (lastN 10 scores).length = 10 := by
      unfold lastN
      rw [List.length_drop]
      omega
    have hrec_ne : lastN 10 scores ≠ [] :=
      List.length_pos.mp (by rw [hrec_len]; norm_num)
    have hrec : mean (lastN 10 scores) = c := mean_const _ c hrec_all hrec_ne
    by_cases h20 : scores.length ≥ 20
    · have hold_all : ∀ x ∈ (scores.drop (scores.length - 20)).take 10, x = c :=
        fun x hx => hall x (List.mem_of_mem_drop (List.mem_of_mem_take hx))
      have hold_len : ((scores.drop (scores.length - 20)).take 10).length = 10 := by
        rw [List.length_take, List.length_drop]
        omega
      have hold_ne : (scores.drop (scores.length - 20)).take 10 ≠ [] :=
        List.length_pos.mp (by rw [hold_len]; norm_num)
      have hold : mean ((scores.drop (scores.length - 20)).take 10) = c :=
        mean_const _ c hold_all hold_ne
      unfold forecast_trend
      rw [if_pos h10]
      dsimp only
      rw [if_pos h20, hrec, hold, if_neg (by linarith), if_neg (by linarith)]
    · have hold_all : ∀ x ∈ (lastN 10 scores).take 5, x = c :=
        fun x hx => hrec_all x (List.mem_of_mem_take hx)
      have hold_len : ((lastN 10 scores).take 5).length = 5 := by
        rw [List.length_take, hrec_len]
        norm_num
      have hold_ne : (lastN 10 scores).take 5 ≠ [] :=
        List.length_pos.mp (by rw [hold_len]; norm_num)
      have hold : mean ((lastN 10 scores).take 5) = c :=
        mean_const _ c hold_all hold_ne
      unfold forecast_trend
      rw [if_pos h10]
      dsimp only
      rw [if_neg h20, hrec, hold, if_neg (by linarith), if_neg (by linarith)]
  · unfold forecast_trend
    rw [if_neg h10]

/-- C8: with fewer than two recorded points the forecaster returns the
explicit insufficient-data result, and on a history of identical values in
[0, 100] it reports trend STABLE with every predicted value equal to that
constant. -/
theorem forecaster_behaviour :
    (∀ scores : List ℚ, scores.length < 2 →
      forecast scores = ⟨[], [], ("STABLE"), some ("Insufficient data")⟩) ∧
    (∀ (scores : List ℚ) (c : ℚ), (∀ x ∈ scores, x = c) →
      2 ≤ scores.length → 0 ≤ c → c ≤ 100 →
      (forecast scores).trend = ("STABLE") ∧ (forecast scores).error = none ∧
      ∀ p ∈ (forecast scores).fpoints, p = c) := by
  constructor
  · intro scores h
    unfold forecast
    rw [if_pos h]
  · intro scores c hall hlen hc0 hc100
    have hne : scores ≠ [] := by
      intro h
      rw [h] at hlen
      simp at hlen
    have htr : forecast_trend scores = ("STABLE") := forecast_trend_const scores c hall
    have hema : ema_of scores = c := ema_const scores c hall hne
    unfold forecast
    rw [if_neg (by omega)]
    dsimp only
    rw [htr, if_neg (by decide), if_neg (by decide), hema]
    refine ⟨rfl, rfl, ?_⟩
    intro p hp
    simp only [List.mem_map] at hp
    obtain ⟨i, _, hpe⟩ := hp
    rw [← hpe]
    have hsimpl : c + 0 * ((i : ℚ) + 1) / 10 = c := by ring
    unfold clamp_score
    rw [hsimpl, min_eq_right hc100, max_eq_right hc0]

/-- Witness for C8: a single recorded point yields the insufficient-data
result, and three points at 55 forecast STABLE with every predicted value
55. -/
theorem forecaster_witness :
    forecast [(55 : ℚ)] = ⟨[], [], ("STABLE"), some ("Insufficient data")⟩ ∧
    (forecast [55, 55, (55 : ℚ)]).trend = ("STABLE") ∧
    ∀ p ∈ (forecast [55, 55, (55 : ℚ)]).fpoints, p = 55 := by
  have hconst : ∀ x ∈ [55, 55, (55 : ℚ)], x = 55 := by
    intro x hx
    simp at hx
    exact hx
  have h := forecaster_behaviour.2 [55, 55, (55 : ℚ)] 55 hconst
    (by simp) (by norm_num) (by norm_num)
  exact ⟨forecaster_behaviour.1 [(55 : ℚ)] (by simp), h.1, h.2.2⟩

/-- C5: after recording a transaction from A to B and one back from B to A
on a fresh ledger, the insights for A report exactly one unique
counterpart, A's count for B and B's count for A are both 2 and A's
counterpart counts sum to A's transaction count, the graph query returns
the undirected edge between A and B exactly once (under its unordered edge
key, hence identically whichever endpoint is consulted), and its weight 2
equals the number of transactions recorded between the pair. -/
theorem wallet_ledger_scenario (A B : String) (h : A ≠ B) :
    (get_wallet_insights (two_tx_state A B) A).unique_counterparts = 1 ∧
    dictGet B (((dictGet A (two_tx_state A B).wallet_graph).getD
      (newWalletData A)).counterparts) = some 2 ∧
    dictGet A (((dictGet B (two_tx_state A B).wallet_graph).getD
      (newWalletData B)).counterparts) = some 2 ∧
    ((get_wallet_insights (two_tx_state A B) A).top_counterparts.map
      (fun p => p.2)).sum =
      (get_wallet_insights (two_tx_state A B) A).transaction_count ∧
    wallet_graph_edges (two_tx_state A B) 50 = [(edge_key A B, 2)] ∧
    tx_between (two_tx_state A B) A B = 2 := by
  have h' : B ≠ A := Ne.symm h
  rcases lt_or_gt_of_ne h with hlt | hgt
  · have hab : A ≤ B := le_of_lt hlt
    have hnba : ¬ B ≤ A := not_le.mpr hlt
    have hab2 : A.data ≤ B.data := String.le_iff_toList_le.mp hab
    have hnba2 : ¬ B.data ≤ A.data := fun hc => hnba (String.le_iff_toList_le.mpr hc)
    refine ⟨?_, ?_, ?_, ?_, ?_, ?_⟩ <;>
      norm_num [two_tx_state, update_wallet_graph, emptyState, ensureKey, dictGet,
        dictSet, setAdd, newWalletData, get_wallet_insights, sortDescBy, insertDescBy,
        wallet_graph_edges, edge_key, tx_between, h, h', hab, hnba, hab2, hnba2]
  · have hba : B ≤ A := le_of_lt hgt
    have hnab : ¬ A ≤ B := not_le.mpr hgt
    have hba2 : B.data ≤ A.data := String.le_iff_toList_le.mp hba
    have hnab2 : ¬ A.data ≤ B.data := fun hc => hnab (String.le_iff_toList_le.mpr hc)
    refine ⟨?_, ?_, ?_, ?_, ?_, ?_⟩ <;>
      norm_num [two_tx_state, update_wallet_graph, emptyState, ensureKey, dictGet,
        dictSet, setAdd, newWalletData, get_wallet_insights, sortDescBy, insertDescBy,
        wallet_graph_edges, edge_key, tx_between, h, h', hba, hnab, hba2, hnab2]

/-- Witness for C5 at the concrete wallets WA and WB. -/
theorem wallet_ledger_witness :
    (get_wallet_insights (two_tx_state ("WA") ("WB")) ("WA")).unique_counterparts = 1 ∧
    wallet_graph_edges (two_tx_state ("WA") ("WB")) 50 =
      [(edge_key ("WA") ("WB"), 2)] ∧
    tx_between (two_tx_state ("WA") ("WB")) ("WA") ("WB") = 2 := by
  have h := wallet_ledger_scenario ("WA") ("WB") (by decide)
  exact ⟨h.1, h.2.2.2.2.1, h.2.2.2.2.2⟩
